import Mathlib

/-
Verification of the rate-limiting and retry core of a Telegram API client
(telegram_client.py / telegram_core.py), as a shallow embedding in Lean.

Times and durations are modelled as rationals (ℚ); random draws (jitter)
become explicit parameters constrained by the interval the code draws from;
the wall clock becomes explicit time parameters constrained to be monotone.
JSON payload fragments are modelled by small inductive types holding exactly
the members the code reads, with numeric values as ℚ.
-/

namespace TgSpec

/-! ### String machinery

Models the pieces of Python string handling used by the flood-wait logic:
str.upper (on ASCII input), substring containment, and the regular-expression
search FLOOD_WAIT[_\s]+(\d+) via a leftmost-match scanner. -/

/-- Uppercase a character list (Python str.upper restricted to ASCII input). -/
def upperChars (l : List Char) : List Char := l.map Char.toUpper

/-- Substring containment: Python (pat in s). -/
def hasSubstr (pat : List Char) : List Char → Bool
  | [] => List.isPrefixOf pat []
  | c :: rest => List.isPrefixOf pat (c :: rest) || hasSubstr pat rest

/-- ASCII whitespace, the regex class matched between the marker and digits. -/
def isWsChar (c : Char) : Bool :=
  c == ' ' || c == '\t' || c == '\n' || c == '\r' || c == Char.ofNat 11 || c == Char.ofNat 12

/-- Separator class of the flood-wait pattern: underscore or whitespace. -/
def isSepChar (c : Char) : Bool := c == '_' || isWsChar c

/-- Numeric value of a digit run, most significant digit first. -/
def digitsVal : List Char → Nat → Nat
  | [], acc => acc
  | c :: rest, acc => digitsVal rest (acc * 10 + (c.toNat - 48))

/-- The marker literal of the pattern, in its uppercased form. -/
def floodMarker : List Char := "FLOOD_WAIT".data

/-- Match FLOOD_WAIT[_\s]+(\d+) at the head of s, returning the captured
integer. The separator class and the digit class are disjoint, so greedy
matching needs no backtracking. -/
def floodMatchAt (s : List Char) : Option Nat :=
  if List.isPrefixOf floodMarker s then
    let rest := (s.drop floodMarker.length).dropWhile isSepChar
    let seps := (s.drop floodMarker.length).takeWhile isSepChar
    let ds := rest.takeWhile Char.isDigit
    if seps.isEmpty then none
    else if ds.isEmpty then none
    else some (digitsVal ds 0)
  else none

/-- Leftmost match of the flood-wait pattern (Python re.search). -/
def floodSearch : List Char → Option Nat
  | [] => none
  | c :: rest =>
    match floodMatchAt (c :: rest) with
    | some n => some n
    | none => floodSearch rest

/-- FLOOD_WAIT marker containment test used by _request on error_code and
error message: "FLOOD_WAIT" in str(x).upper(). -/
def hasFloodMarker (s : String) : Bool :=
  hasSubstr floodMarker (upperChars s.data)

/-! ### Flood-wait extraction (TelegramClient._extract_flood_wait_time) -/

/-- The "parameters" member of an error payload as read by the flood-wait
extractor: result.get("parameters", \x7b\x7d) gives an empty dict when the key is
absent, so absence is the dict with both keys missing; a non-dict value is
skipped. Values are modelled as JSON numbers. -/
inductive ParamsField where
  | notDict
  | dict (seconds : Option ℚ) (retryAfter : Option ℚ)
  deriving DecidableEq

/-- Python (a or b) on two optional numbers: None and 0 are falsy. -/
def pyOr (a b : Option ℚ) : Option ℚ :=
  match a with
  | some q => if q ≠ 0 then some q else b
  | none => b

/-- TelegramClient._extract_flood_wait_time: the wait in seconds derived from
a flood-wait error message and the response's parameters member. -/
def extract_flood_wait_time (errorMsg : String) (params : ParamsField) : ℚ :=
  let wait1 : ℚ :=
    match params with
    | .notDict => 1
    | .dict s r =>
      match pyOr s r with
      | some q => if q ≠ 0 then q else 1
      | none => 1
  let wait2 : ℚ :=
    match floodSearch (upperChars errorMsg.data) with
    | some n => (n : ℚ)
    | none => wait1
  min wait2 3600

/-- The computation as claim C1 words it: the structured parameters field is
consulted first, the marker text is only a fallback, the default is 1.0, and
the result is clamped to the interval [0, 3600]. -/
def flood_wait_time_claimed (errorMsg : String) (params : ParamsField) : ℚ :=
  let structured : Option ℚ :=
    match params with
    | .notDict => none
    | .dict s r =>
      match pyOr s r with
      | some q => if q ≠ 0 then some q else none
      | none => none
  let v : ℚ :=
    match structured with
    | some q => q
    | none =>
      match floodSearch (upperChars errorMsg.data) with
      | some n => (n : ℚ)
      | none => 1
  max 0 (min v 3600)

/-- The amended reading: the integer following the marker in the error text
takes precedence, the structured field is only consulted when no marker
matches, and the value is clamped above at 3600 with no lower clamp. -/
def flood_wait_time_amended (errorMsg : String) (params : ParamsField) : ℚ :=
  let v : ℚ :=
    match floodSearch (upperChars errorMsg.data) with
    | some n => (n : ℚ)
    | none =>
      match params with
      | .notDict => 1
      | .dict s r =>
        match pyOr s r with
        | some q => if q ≠ 0 then q else 1
        | none => 1
  min v 3600

/-! ### 429 handling (TelegramClient._handle_rate_limit_error) -/

/-- A JSON value as relevant to retry-after extraction: a number, or anything
that fails the isinstance(int, float) check. -/
inductive JVal where
  | num (q : ℚ)
  | nonNum
  deriving DecidableEq

/-- The 429 response body as read by the handler: a parse failure or non-dict
payload (both leave the default in place), or a dict carrying the top-level
"retry_after" member and the nested "parameters"."retry_after" member. -/
inductive Body429 where
  | notDict
  | dict (retryAfter : Option JVal) (paramsRetryAfter : Option JVal)
  deriving DecidableEq

/-- Base retry-after of _handle_rate_limit_error: the body's top-level field,
else the nested parameters field, else 1.0; non-numeric values fall back to
1.0; a Retry-After header that parses as a number overrides the body value.
The header is modelled as: none = absent, some none = present but
unparseable, some (some h) = present with numeric value h. -/
def rate_limit_retry_after (body : Body429) (header : Option (Option ℚ)) : ℚ :=
  let fromBody : ℚ :=
    match body with
    | .notDict => 1
    | .dict top pra =>
      let v : JVal :=
        match top with
        | some j => j
        | none =>
          match pra with
          | some j => j
          | none => .num 1
      match v with
      | .num q => q
      | .nonNum => 1
  match header with
  | some (some h) => h
  | _ => fromBody

/-- TelegramClient._handle_rate_limit_error: total wait before the next
attempt. jitter stands for the random.uniform(0, backoff * 0.25) draw. -/
def handle_rate_limit_error (body : Body429) (header : Option (Option ℚ))
    (attempt : ℕ) (jitter : ℚ) : ℚ :=
  let retryAfter := rate_limit_retry_after body header
  let backoff := retryAfter * 2 ^ attempt
  min (backoff + jitter) 60

/-! ### Edit quota (TelegramClient._check_edit_rate_limit) -/

/-- Edit-quota state: _last_edit_time, _edit_count_last_hour,
_edit_count_reset_time. -/
structure EditState where
  lastEditTime : Option ℚ
  count : ℕ
  resetTime : Option ℚ
  deriving DecidableEq

/-- The condition of the hourly reset branch: no reset deadline recorded yet,
or current_time >= _edit_count_reset_time. -/
def resetDue (s : EditState) (now : ℚ) : Bool :=
  match s.resetTime with
  | none => true
  | some rt => decide (rt ≤ now)

/-- The edit count after the reset branch has run. -/
def editCount0 (s : EditState) (now : ℚ) : ℕ :=
  if resetDue s now then 0 else s.count

/-- The reset deadline after the reset branch has run. -/
def editReset0 (s : EditState) (now : ℚ) : ℚ :=
  if resetDue s now then now + 3600 else s.resetTime.getD (now + 3600)

inductive EditOutcome where
  | ok (sleepTime : Option ℚ)
  | quotaExceeded (retryAfter : ℚ)
  deriving DecidableEq

/-- The per-second spacing sleep of the edit gate: 0.2 seconds minus the
elapsed time plus the random.uniform(0, 0.02) draw when the gap falls short,
nothing otherwise. -/
def edit_sleep (lastEdit : Option ℚ) (now jitter : ℚ) : Option ℚ :=
  match lastEdit with
  | some le => if now - le < 1/5 then some (1/5 - (now - le) + jitter) else none
  | none => none

/-- TelegramClient._check_edit_rate_limit. now is the time.time() read at
entry, jitter the random.uniform(0, 0.02) draw, now2 the time.time() read at
the final assignment. The quotaExceeded outcome models the RateLimitError
raise; the ok outcome carries the per-second sleep, none meaning no sleep. -/
def check_edit_rate_limit (s : EditState) (now jitter now2 : ℚ) :
    EditState × EditOutcome :=
  let c0 := editCount0 s now
  let r0 := editReset0 s now
  if 120 ≤ c0 ∧ 0 < r0 - now then
    (⟨s.lastEditTime, c0, some r0⟩, .quotaExceeded (r0 - now))
  else
    (⟨some now2, c0 + 1, some r0⟩, .ok (edit_sleep s.lastEditTime now jitter))

/-- The state at client construction. -/
def initEditState : EditState := ⟨none, 0, none⟩

/-- Fold a sequence of acquisitions (now, jitter, now2) through the quota. -/
def runEdits (s : EditState) : List (ℚ × ℚ × ℚ) → EditState
  | [] => s
  | (now, j, now2) :: rest => runEdits (check_edit_rate_limit s now j now2).1 rest

/-- Clock sanity of a trace starting no earlier than t: each acquisition reads
now after the previous acquisition's final read, and now2 after now. -/
def editTraceOk : ℚ → List (ℚ × ℚ × ℚ) → Bool
  | _, [] => true
  | t, (now, _, now2) :: rest =>
    decide (t ≤ now) && decide (now ≤ now2) && editTraceOk now2 rest

/-- The final clock value of a trace starting at t. -/
def editEnd : ℚ → List (ℚ × ℚ × ℚ) → ℚ
  | t, [] => t
  | _, (_, _, now2) :: rest => editEnd now2 rest

/-! ### Per-destination message cadence (TelegramClient._check_message_rate_limit) -/

/-- Chat identifier: Python Union[int, str]. -/
inductive ChatId where
  | int (i : ℤ)
  | str (s : String)
  deriving DecidableEq

/-- The sleep decided for chat c (none means proceed immediately): 1.0 second
minus the elapsed time plus the random.uniform(0, 0.1) draw. -/
def message_sleep (m : ChatId → Option ℚ) (c : ChatId) (now jitter : ℚ) : Option ℚ :=
  match m c with
  | some l => if now - l < 1 then some (1 - (now - l) + jitter) else none
  | none => none

/-- TelegramClient._check_message_rate_limit: the per-chat map after the
acquisition, with now2 the time.time() read at the final assignment. -/
def check_message_rate_limit (m : ChatId → Option ℚ) (c : ChatId) (now2 : ℚ) :
    ChatId → Option ℚ :=
  fun d => if d = c then some now2 else m d

/-! ### Global rate gate (TelegramClient._wait_for_rate_limit and
TelegramCore._wait_for_rate_limit, identical logic) -/

/-- The sleep performed by _wait_for_rate_limit given the recorded last
request time: the remainder of the minimum delay plus the jitter draw when
the elapsed time falls short, nothing otherwise. -/
def rate_gate_sleep (last : Option ℚ) (minDelay now jitter : ℚ) : ℚ :=
  match last with
  | none => 0
  | some l => if now - l < minDelay then minDelay - (now - l) + jitter else 0

/-- Cheap order test on the optional last time. -/
def lastLeB (last : Option ℚ) (now : ℚ) : Bool :=
  match last with
  | none => true
  | some l => decide (l ≤ now)

/-- Validity of an acquisition trace for the gate with minimum interval d:
each entry (now, jitter, now2) has a nonnegative jitter draw, a clock read
not before the previously recorded time, and a wake-up clock read now2 no
earlier than now plus the computed sleep. The recorded time after each
acquisition is its now2. -/
def gateOk (d : ℚ) : Option ℚ → List (ℚ × ℚ × ℚ) → Bool
  | _, [] => true
  | last, (now, j, now2) :: rest =>
    decide (0 ≤ j) && lastLeB last now &&
      decide (now + rate_gate_sleep last d now j ≤ now2) && gateOk d (some now2) rest

/-- The recorded acquisition times of a trace. -/
def gateTimes (tr : List (ℚ × ℚ × ℚ)) : List ℚ := tr.map (fun e => e.2.2)

/-- Every pair of consecutive entries is at least d apart. -/
def chainGapB (d : ℚ) : List ℚ → Bool
  | [] => true
  | [_] => true
  | a :: b :: rest => decide (d ≤ b - a) && chainGapB d (b :: rest)

/-! ### The retry loop (TelegramClient._request)

The underlying HTTP call at each attempt either fails at the transport level
(httpx.RequestError / TimeoutException) or yields a response, modelled with
exactly the members the loop reads. body429 and floodParams are the two views
the code takes of the same response.json() payload: the retry-after members
for the 429 branch and the parameters member for the flood-wait branch. -/

structure ApiResp where
  status : ℕ
  header : Option (Option ℚ)
  body429 : Body429
  success : Bool
  errorMsg : String
  errorCode : String
  floodParams : ParamsField
  data : Option String
  deriving DecidableEq

inductive CallOutcome where
  | transport
  | resp (r : ApiResp)
  deriving DecidableEq

/-- httpx Response.is_success: a 2xx status. response.raise_for_status()
raises HTTPStatusError for every response outside this range (1xx and 3xx
included, since the client does not follow redirects). -/
def is_success (status : ℕ) : Bool := decide (200 ≤ status) && decide (status < 300)

/-- Terminal outcome of _request: the returned data, or the raised error with
the value it carries. -/
inductive ReqResult where
  | ok (data : Option String)
  | rateLimitError (retryAfter : ℚ)
  | floodWaitError (waitTime : ℚ)
  | clientError (msg : String)
  | httpError (status : ℕ)
  | transportError
  deriving DecidableEq

/-- One pass of the for-loop body of _request plus its remaining iterations,
driven by structural fuel (request supplies fuel maxRetries + 1, matching
range(max_retries + 1)). outcomes gives the call outcome of each attempt;
rlJ, flJ, trJ give the jitter draws of the 429 sleep (already folded into
handle_rate_limit_error), the flood-wait sleep, and the transport backoff.
Returns the terminal result, the number of underlying calls performed, and
the backoff sleeps in order. The fuel-exhausted value models the unreachable
fall-through raise at the end of _request. -/
def request_attempts (mr : ℕ) (outcomes : ℕ → CallOutcome)
    (rlJ flJ trJ : ℕ → ℚ) : ℕ → ℕ → ReqResult × ℕ × List ℚ
  | _, 0 => (.clientError "Request failed after all retries", 0, [])
  | attempt, fuel + 1 =>
    match outcomes attempt with
    | .transport =>
      if attempt < mr then
        let w := (2 ^ attempt : ℚ) + trJ attempt
        let rest := request_attempts mr outcomes rlJ flJ trJ (attempt + 1) fuel
        (rest.1, rest.2.1 + 1, w :: rest.2.2)
      else (.transportError, 1, [])
    | .resp r =>
      if r.status = 429 then
        let w := handle_rate_limit_error r.body429 r.header attempt (rlJ attempt)
        if attempt < mr then
          let rest := request_attempts mr outcomes rlJ flJ trJ (attempt + 1) fuel
          (rest.1, rest.2.1 + 1, w :: rest.2.2)
        else (.rateLimitError w, 1, [])
      else if is_success r.status = false then
        if attempt < mr then
          let w := (2 ^ attempt : ℚ) + trJ attempt
          let rest := request_attempts mr outcomes rlJ flJ trJ (attempt + 1) fuel
          (rest.1, rest.2.1 + 1, w :: rest.2.2)
        else (.httpError r.status, 1, [])
      else if r.success then (.ok r.data, 1, [])
      else if hasFloodMarker r.errorCode || hasFloodMarker r.errorMsg then
        let w := extract_flood_wait_time r.errorMsg r.floodParams
        if attempt < mr then
          let rest := request_attempts mr outcomes rlJ flJ trJ (attempt + 1) fuel
          (rest.1, rest.2.1 + 1, (w + flJ attempt) :: rest.2.2)
        else (.floodWaitError w, 1, [])
      else (.clientError r.errorMsg, 1, [])

/-- TelegramClient._request from the top of the retry loop. -/
def request (mr : ℕ) (outcomes : ℕ → CallOutcome) (rlJ flJ trJ : ℕ → ℚ) :
    ReqResult × ℕ × List ℚ :=
  request_attempts mr outcomes rlJ flJ trJ 0 (mr + 1)

/-- The constructor default of max_retries. -/
def max_retries_default : ℕ := 3

/-- A call outcome that the loop treats as throttle (429) or flood-wait
(2xx status, success false, marker in error_code or error message). -/
def isThrottleOrFlood : CallOutcome → Bool
  | .transport => false
  | .resp r =>
    decide (r.status = 429) ||
      (is_success r.status && !r.success &&
        (hasFloodMarker r.errorCode || hasFloodMarker r.errorMsg))

/-- The exhaustion error raised when the final attempt yields a throttle or
flood-wait outcome: the error kind of that outcome, carrying the wait
computed at that attempt. -/
def exhaustResult (o : CallOutcome) (a : ℕ) (rlJ : ℕ → ℚ) : ReqResult :=
  match o with
  | .transport => .transportError
  | .resp r =>
    if r.status = 429 then
      .rateLimitError (handle_rate_limit_error r.body429 r.header a (rlJ a))
    else .floodWaitError (extract_flood_wait_time r.errorMsg r.floodParams)

/-! ### Gate acquisitions per outbound call (TelegramCore public operations)

Each public operation is summarised by the sequence of gate acquisitions and
outbound provider calls its success path performs, read off the source. -/

inductive GateEv where
  | rateGate
  | cadenceGate
  | editGate
  | providerCall
  deriving DecidableEq

/-- TelegramCore.download_media success path: get_entity, get_messages,
download_media, with both _wait_for_rate_limit calls commented out in the
source. -/
def download_media_events : List GateEv := [.providerCall, .providerCall, .providerCall]

/-- TelegramCore.send_message success path: the per-chat cadence gate, one
rate-gate acquisition, then get_entity and send_message. -/
def send_message_events : List GateEv :=
  [.cadenceGate, .rateGate, .providerCall, .providerCall]

/-- TelegramCore.get_messages success path: a rate-gate acquisition before
each of get_entity and get_messages. -/
def get_messages_events : List GateEv :=
  [.rateGate, .providerCall, .rateGate, .providerCall]

def rateGateCount (l : List GateEv) : ℕ := l.count .rateGate

def providerCallCount (l : List GateEv) : ℕ := l.count .providerCall

/-! ### Interleaving of two concurrent rate-gate acquirers
(TelegramCore._wait_for_rate_limit under asyncio)

The method body splits at its only suspension point, the await of
asyncio.sleep: segment one (read the clock, read _last_request_time, compute
the sleep) runs atomically, and segment two (resume from the sleep, read the
clock again, write _last_request_time) runs atomically. A schedule is a
sequence of (task, clock time) events at nondecreasing times; a suspended
task may resume only once its sleep has elapsed. -/

structure GateTask where
  stage : ℕ
  startT : ℚ
  sleepT : ℚ
  doneT : ℚ
  deriving DecidableEq

structure GateWorld where
  lastRequestTime : Option ℚ
  taskA : GateTask
  taskB : GateTask
  deriving DecidableEq

/-- Run one atomic segment of the named task at clock time t. -/
def gateStep (d jA jB : ℚ) (w : GateWorld) (isA : Bool) (t : ℚ) : Option GateWorld :=
  let task := if isA then w.taskA else w.taskB
  let j := if isA then jA else jB
  match task.stage with
  | 0 =>
    let s := rate_gate_sleep w.lastRequestTime d t j
    let task' : GateTask := ⟨1, t, s, task.doneT⟩
    some (if isA then { w with taskA := task' } else { w with taskB := task' })
  | 1 =>
    if task.startT + task.sleepT ≤ t then
      let task' : GateTask := ⟨2, task.startT, task.sleepT, t⟩
      some (if isA then { w with lastRequestTime := some t, taskA := task' }
            else { w with lastRequestTime := some t, taskB := task' })
    else none
  | _ => none

/-- Run a schedule from a world, at nondecreasing clock times starting no
earlier than tPrev. -/
def gateRunSched (d jA jB : ℚ) : GateWorld → ℚ → List (Bool × ℚ) → Option GateWorld
  | w, _, [] => some w
  | w, tPrev, (isA, t) :: rest =>
    if tPrev ≤ t then
      match gateStep d jA jB w isA t with
      | some w' => gateRunSched d jA jB w' t rest
      | none => none
    else none

/-! ### Theorems -/

/-- C1 counterexample: the claim's reading (structured field first, text as
fallback, clamp to the interval from 0 to 3600) disagrees with the code on a
payload carrying both a structured value and a marker match (the code returns
the text value 45, the claim demands the structured value 10), and on a
negative structured value (the code returns -5, below the claimed lower
clamp of 0). -/
theorem c1_flood_wait_counterexample :
    extract_flood_wait_time "FLOOD_WAIT_45" (.dict (some 10) none) = 45
    ∧ flood_wait_time_claimed "FLOOD_WAIT_45" (.dict (some 10) none) = 10
    ∧ extract_flood_wait_time "err" (.dict (some (-5)) none) = -5
    ∧ flood_wait_time_claimed "err" (.dict (some (-5)) none) = 0 :=
  ⟨by decide, by decide, by decide, by decide⟩

/-- C1 (amended): the wait for a flood-wait outcome is computed by first
extracting the leading integer following the case-insensitive FLOOD_WAIT
marker in the error text; only when no marker matches is the structured
parameters field (seconds or retry_after, when truthy) consulted, else the
default 1.0 applies; the result is clamped above at 3600 with no lower
clamp. -/
theorem c1_flood_wait_amended (errorMsg : String) (params : ParamsField) :
    extract_flood_wait_time errorMsg params = flood_wait_time_amended errorMsg params := by
  unfold extract_flood_wait_time flood_wait_time_amended
  cases h : floodSearch (upperChars errorMsg.data) <;> simp [h]

/-- C2: the retryAfter base of the 429 handler is read from the body (first
the top-level field, else the nested parameters field, defaulting to 1.0
when absent or non-numeric), then overridden by a Retry-After header that
parses as a number; the computed wait is retryAfter * 2 ^ attempt plus the
jitter, clamped at 60; with retryAfter 2 from the header and attempt 1 the
wait lies between 4 and 5, and for every attempt it lies between 0 and
60. -/
theorem c2_throttle_backoff :
    (∀ (b : Body429) (h : ℚ), rate_limit_retry_after b (some (some h)) = h)
    ∧ (∀ b : Body429, rate_limit_retry_after b (some none) = rate_limit_retry_after b none)
    ∧ (∀ (q : ℚ) (pra : Option JVal),
        rate_limit_retry_after (.dict (some (.num q)) pra) none = q)
    ∧ (∀ pra : Option JVal, rate_limit_retry_after (.dict (some .nonNum) pra) none = 1)
    ∧ (∀ q : ℚ, rate_limit_retry_after (.dict none (some (.num q))) none = q)
    ∧ rate_limit_retry_after (.dict none (some .nonNum)) none = 1
    ∧ rate_limit_retry_after (.dict none none) none = 1
    ∧ rate_limit_retry_after .notDict none = 1
    ∧ (∀ (b : Body429) (h : Option (Option ℚ)) (a : ℕ) (j : ℚ),
        handle_rate_limit_error b h a j = min (rate_limit_retry_after b h * 2 ^ a + j) 60)
    ∧ (∀ (b : Body429) (j : ℚ), 0 ≤ j → j ≤ 1 →
        4 ≤ handle_rate_limit_error b (some (some 2)) 1 j
          ∧ handle_rate_limit_error b (some (some 2)) 1 j ≤ 5)
    ∧ (∀ (b : Body429) (a : ℕ) (j : ℚ), 0 ≤ j → j ≤ 2 * 2 ^ a * (1/4) →
        0 ≤ handle_rate_limit_error b (some (some 2)) a j
          ∧ handle_rate_limit_error b (some (some 2)) a j ≤ 60) := by
  refine ⟨fun b h => rfl, fun b => rfl, fun q pra => rfl, fun pra => rfl, fun q => rfl,
    rfl, rfl, rfl, fun b h a j => rfl, fun b j h0 h1 => ?_, fun b a j h0 h1 => ?_⟩
  · have hb : handle_rate_limit_error b (some (some 2)) 1 j = min ((2:ℚ) * 2 ^ 1 + j) 60 := rfl
    have h4 : (2:ℚ) * 2 ^ 1 = 4 := by norm_num
    rw [hb, h4]
    constructor
    · exact le_min (by linarith) (by norm_num)
    · exact (min_le_left _ _).trans (by linarith)
  · have hb : handle_rate_limit_error b (some (some 2)) a j = min ((2:ℚ) * 2 ^ a + j) 60 := rfl
    have hp : (0:ℚ) ≤ 2 * 2 ^ a := by positivity
    rw [hb]
    exact ⟨le_min (by linarith) (by norm_num), min_le_right _ _⟩

/-- C2 witness: with a Retry-After header of 2, attempt 1 and a jitter draw
of one half, the computed wait lies between 4 and 5. -/
theorem c2_throttle_backoff_witness :
    4 ≤ handle_rate_limit_error .notDict (some (some 2)) 1 (1/2)
    ∧ handle_rate_limit_error .notDict (some (some 2)) 1 (1/2) ≤ 5 :=
  c2_throttle_backoff.2.2.2.2.2.2.2.2.2.1 .notDict (1/2) (by norm_num) (by norm_num)

/-- C5: on its success path TelegramCore.download_media performs three
outbound provider calls and zero global rate-gate acquisitions (both
_wait_for_rate_limit calls are commented out in the source), so the gate is
not acquired exactly once per outbound call; send_message likewise performs
two outbound calls under a single acquisition. -/
theorem c5_download_media_gate_eval :
    rateGateCount download_media_events = 0
    ∧ providerCallCount download_media_events = 3
    ∧ rateGateCount send_message_events = 1
    ∧ providerCallCount send_message_events = 2 := by decide

/-- C9: two tasks concurrently acquiring the core's rate gate (minimum
interval one fifth of a second, last acquisition recorded at time 0) can
both read the stale timestamp before either writes: under the schedule in
which both run their pre-await segment at time 1/10 and resume at times 1/5
and 21/100, both compute the same sleep of 1/10 and the two recorded
acquisition times end up 1/100 apart, violating the minimum spacing that
serialized acquisitions would guarantee. -/
theorem c9_gate_race_eval :
    gateRunSched (1/5) 0 0 ⟨some 0, ⟨0, 0, 0, 0⟩, ⟨0, 0, 0, 0⟩⟩ 0
        [(true, 1/10), (false, 1/10), (true, 1/5), (false, 21/100)]
      = some ⟨some (21/100), ⟨2, 1/10, 1/10, 1/5⟩, ⟨2, 1/10, 1/10, 21/100⟩⟩
    ∧ chainGapB (1/5) [0, 1/5, 21/100] = false := by
  constructor
  · norm_num [gateRunSched, gateStep, rate_gate_sleep]
  · norm_num [chainGapB]

/-- C10: an edit-quota acquisition that fails with the quota-exceeded error
leaves the entire edit-quota state unchanged: last edit time, hourly count
and reset deadline keep their prior values, so a rejected acquisition
consumes no quota. -/
theorem c10_failed_acquire_no_consume (s : EditState) (now jitter now2 r : ℚ)
    (h : (check_edit_rate_limit s now jitter now2).2 = .quotaExceeded r) :
    (check_edit_rate_limit s now jitter now2).1 = s := by
  unfold check_edit_rate_limit at h ⊢
  by_cases hc : 120 ≤ editCount0 s now ∧ 0 < editReset0 s now - now
  · rw [if_pos hc] at h ⊢
    have hrd : resetDue s now = false := by
      rcases hb : resetDue s now with _ | _
      · rfl
      · exfalso
        have : editCount0 s now = 0 := by simp [editCount0, hb]
        omega
    obtain ⟨rt, hrt⟩ : ∃ rt, s.resetTime = some rt := by
      rcases ho : s.resetTime with _ | rt
      · simp [resetDue, ho] at hrd
      · exact ⟨rt, rfl⟩
    have hcount : editCount0 s now = s.count := by simp [editCount0, hrd]
    have hreset : editReset0 s now = rt := by simp [editReset0, hrd, hrt]
    cases s with
    | mk le c rtm =>
      simp only at hrt
      subst hrt
      simp [hcount, hreset]
  · rw [if_neg hc] at h
    simp at h

/-- C10 witness: with 120 edits counted and the window deadline at 3600, an
acquisition at time 100 is rejected and the state is unchanged. -/
theorem c10_failed_acquire_no_consume_witness :
    (check_edit_rate_limit ⟨some 10, 120, some 3600⟩ 100 0 100).1
      = (⟨some 10, 120, some 3600⟩ : EditState) :=
  c10_failed_acquire_no_consume ⟨some 10, 120, some 3600⟩ 100 0 100 3500
    (by norm_num [check_edit_rate_limit, editCount0, editReset0, resetDue])

/-- The state written by an edit-quota acquisition always records the
post-reset deadline, whatever the outcome. -/
theorem check_edit_resetTime (s : EditState) (now jitter now2 : ℚ) :
    (check_edit_rate_limit s now jitter now2).1.resetTime = some (editReset0 s now) := by
  unfold check_edit_rate_limit
  by_cases hc : 120 ≤ editCount0 s now ∧ 0 < editReset0 s now - now
  · rw [if_pos hc]
  · rw [if_neg hc]

/-- The post-reset deadline never exceeds the current time plus one hour,
provided the incoming deadline respected that bound for earlier times. -/
theorem editReset0_le (s : EditState) (now bound : ℚ) (hb : now ≤ bound)
    (hs : ∀ rt, s.resetTime = some rt → rt ≤ bound + 3600) :
    editReset0 s now ≤ bound + 3600 := by
  rcases hr : resetDue s now with _ | _
  · rcases ho : s.resetTime with _ | rt
    · simp [resetDue, ho] at hr
    · unfold editReset0
      rw [hr, if_neg Bool.false_ne_true, ho]
      simp only [Option.getD_some]
      exact hs rt ho
  · unfold editReset0
    rw [hr, if_pos rfl]
    linarith

/-- Along any clock-monotone acquisition trace, the recorded reset deadline
stays within one hour of the running clock. -/
theorem editInv_run : ∀ (tr : List (ℚ × ℚ × ℚ)) (t0 : ℚ) (s : EditState),
    editTraceOk t0 tr = true →
    (∀ rt, s.resetTime = some rt → rt ≤ t0 + 3600) →
    ∀ rt, (runEdits s tr).resetTime = some rt → rt ≤ editEnd t0 tr + 3600 := by
  intro tr
  induction tr with
  | nil =>
    intro t0 s _ hs rt hrt
    exact hs rt hrt
  | cons e rest ih =>
    obtain ⟨now, j, now2⟩ := e
    intro t0 s htr hs
    simp only [editTraceOk, Bool.and_eq_true, decide_eq_true_eq] at htr
    obtain ⟨⟨h0, h1⟩, h2⟩ := htr
    refine ih now2 (check_edit_rate_limit s now j now2).1 h2 ?_
    intro rt hrt
    rw [check_edit_resetTime] at hrt
    injection hrt with hrt
    subst hrt
    have := editReset0_le s now now le_rfl (fun rt h => (hs rt h).trans (by linarith))
    linarith

/-- C4: with 120 edits already counted in the still-open window, an edit
acquisition fails with the quota-exceeded error whose retry_after is the
time remaining to the deadline, a value that is positive and, whenever the
deadline respects the rolling-window invariant, at most 3600; the reset
branch fires exactly when the deadline has passed (or no window is open),
and it restarts the count and moves the deadline one hour past now;
moreover the invariant holds along every clock-monotone trace from the
initial state. -/
theorem c4_edit_quota :
    (∀ (s : EditState) (now jitter now2 rt : ℚ),
        s.resetTime = some rt → 120 ≤ s.count → now < rt →
        (check_edit_rate_limit s now jitter now2).2 = .quotaExceeded (rt - now)
          ∧ 0 < rt - now ∧ (rt ≤ now + 3600 → rt - now ≤ 3600))
    ∧ (∀ (s : EditState) (now : ℚ), resetDue s now = true ↔
        (s.resetTime = none ∨ ∃ rt, s.resetTime = some rt ∧ rt ≤ now))
    ∧ (∀ (s : EditState) (now : ℚ), resetDue s now = true →
        editCount0 s now = 0 ∧ editReset0 s now = now + 3600)
    ∧ (∀ (t0 : ℚ) (tr : List (ℚ × ℚ × ℚ)), editTraceOk t0 tr = true →
        ∀ rt, (runEdits initEditState tr).resetTime = some rt →
          rt ≤ editEnd t0 tr + 3600) := by
  refine ⟨?_, ?_, ?_, ?_⟩
  · intro s now jitter now2 rt hrt hcount hlt
    have hrd : resetDue s now = false := by
      simp [resetDue, hrt, not_le.mpr hlt]
    have hc0 : editCount0 s now = s.count := by simp [editCount0, hrd]
    have hr0 : editReset0 s now = rt := by simp [editReset0, hrd, hrt]
    have hcond : 120 ≤ editCount0 s now ∧ 0 < editReset0 s now - now := by
      rw [hc0, hr0]
      exact ⟨hcount, by linarith⟩
    unfold check_edit_rate_limit
    rw [if_pos hcond, hr0]
    exact ⟨rfl, by linarith, fun hb => by linarith⟩
  · intro s now
    unfold resetDue
    rcases ho : s.resetTime with _ | rt <;> simp [ho]
  · intro s now hrd
    exact ⟨by simp [editCount0, hrd], by simp [editReset0, hrd]⟩
  · intro t0 tr htr rt hrt
    exact editInv_run tr t0 initEditState htr (by intro rt h; simp [initEditState] at h) rt hrt

/-- C4 witness: with 120 edits counted and deadline 3600, the acquisition at
time 100 fails carrying retry_after 3500, positive and at most 3600. -/
theorem c4_edit_quota_witness :
    (check_edit_rate_limit ⟨none, 120, some 3600⟩ 100 0 100).2
        = .quotaExceeded (3600 - 100)
    ∧ (0:ℚ) < 3600 - 100 ∧ ((3600:ℚ) ≤ 100 + 3600 → (3600:ℚ) - 100 ≤ 3600) :=
  c4_edit_quota.1 ⟨none, 120, some 3600⟩ 100 0 100 3600 rfl (by norm_num) (by norm_num)

/-- From a recorded last time l, every valid continuation of the gate trace
keeps consecutive recorded times at least d apart, starting with l itself. -/
theorem gate_chain (d : ℚ) : ∀ (tr : List (ℚ × ℚ × ℚ)) (l : ℚ),
    gateOk d (some l) tr = true → chainGapB d (l :: gateTimes tr) = true := by
  intro tr
  induction tr with
  | nil => intro l _; rfl
  | cons e rest ih =>
    obtain ⟨now, j, now2⟩ := e
    intro l h
    simp only [gateOk, lastLeB, Bool.and_eq_true, decide_eq_true_eq] at h
    obtain ⟨⟨⟨hj, hl⟩, hw⟩, hrest⟩ := h
    have hgap : d ≤ now2 - l := by
      replace hw : now + (if now - l < d then d - (now - l) + j else 0) ≤ now2 := hw
      by_cases hlt : now - l < d
      · rw [if_pos hlt] at hw
        linarith
      · rw [if_neg hlt] at hw
        push_neg at hlt
        linarith
    have htail := ih now2 hrest
    simp only [gateTimes, List.map_cons] at htail ⊢
    simp only [chainGapB, Bool.and_eq_true, decide_eq_true_eq]
    exact ⟨hgap, htail⟩

/-- C6: along any valid sequence of rate-gate acquisitions with minimum
interval d (nonnegative jitter, monotone clock, wake-up no earlier than the
computed sleep), every pair of consecutively recorded acquisition times is
at least d apart; and the jitter only increases the computed sleep, never
decreases it. -/
theorem c6_rate_gate_spacing :
    (∀ (d : ℚ) (tr : List (ℚ × ℚ × ℚ)), gateOk d none tr = true →
        chainGapB d (gateTimes tr) = true)
    ∧ (∀ (last : Option ℚ) (d now j : ℚ), 0 ≤ j →
        rate_gate_sleep last d now 0 ≤ rate_gate_sleep last d now j) := by
  constructor
  · intro d tr
    cases tr with
    | nil => intro _; rfl
    | cons e rest =>
      obtain ⟨now, j, now2⟩ := e
      intro h
      simp only [gateOk, lastLeB, Bool.and_eq_true, decide_eq_true_eq] at h
      obtain ⟨⟨⟨hj, _⟩, hw⟩, hrest⟩ := h
      simpa [gateTimes] using gate_chain d rest now2 hrest
  · intro last d now j hj
    cases last with
    | none => exact le_rfl
    | some l =>
      show (if now - l < d then d - (now - l) + 0 else 0)
        ≤ (if now - l < d then d - (now - l) + j else 0)
      by_cases hlt : now - l < d
      · rw [if_pos hlt, if_pos hlt]
        linarith
      · rw [if_neg hlt, if_neg hlt]

/-- C6 witness: with minimum interval 1/5, an acquisition recorded at 0
followed by one entering at 1/10 (sleeping 1/10, waking at 1/5) yields
recorded times 0 and 1/5, exactly 1/5 apart. -/
theorem c6_rate_gate_spacing_witness :
    chainGapB (1/5) (gateTimes [((0:ℚ), (0:ℚ), (0:ℚ)), (1/10, 0, 1/5)]) = true :=
  c6_rate_gate_spacing.1 (1/5) [(0, 0, 0), (1/10, 0, 1/5)]
    (by norm_num [gateOk, lastLeB, rate_gate_sleep])

/-- C7: for a fixed destination chat, an acquisition whose previous recorded
send time is l proceeds only once the clock has advanced at least 1.0 beyond
l (the sleep is the remainder plus the jitter when the gap falls short, and
nothing otherwise); a first-seen destination proceeds with no sleep; the
sleep decision reads only that destination's entry; and the update leaves
every other destination's recorded time untouched while recording now2 for
the destination itself. -/
theorem c7_message_cadence :
    (∀ (m : ChatId → Option ℚ) (c : ChatId) (now j now2 l : ℚ),
        m c = some l → 0 ≤ j → l ≤ now →
        now + (message_sleep m c now j).getD 0 ≤ now2 → 1 ≤ now2 - l)
    ∧ (∀ (m : ChatId → Option ℚ) (c : ChatId) (now j : ℚ),
        m c = none → message_sleep m c now j = none)
    ∧ (∀ (m : ChatId → Option ℚ) (c : ChatId) (now j l : ℚ), m c = some l →
        now - l < 1 → message_sleep m c now j = some (1 - (now - l) + j))
    ∧ (∀ (m : ChatId → Option ℚ) (c : ChatId) (now j l : ℚ), m c = some l →
        ¬ now - l < 1 → message_sleep m c now j = none)
    ∧ (∀ (m : ChatId → Option ℚ) (c : ChatId) (now2 : ℚ) (d : ChatId), d ≠ c →
        check_message_rate_limit m c now2 d = m d)
    ∧ (∀ (m m' : ChatId → Option ℚ) (c : ChatId) (now j : ℚ), m c = m' c →
        message_sleep m c now j = message_sleep m' c now j)
    ∧ (∀ (m : ChatId → Option ℚ) (c : ChatId) (now2 : ℚ),
        check_message_rate_limit m c now2 c = some now2) := by
  refine ⟨?_, ?_, ?_, ?_, ?_, ?_, ?_⟩
  · intro m c now j now2 l hl hj _ hw
    unfold message_sleep at hw
    rw [hl] at hw
    replace hw :
        now + (if now - l < 1 then some (1 - (now - l) + j) else none).getD 0 ≤ now2 := hw
    by_cases hlt : now - l < 1
    · rw [if_pos hlt] at hw
      simp only [Option.getD_some] at hw
      linarith
    · rw [if_neg hlt] at hw
      simp only [Option.getD_none] at hw
      push_neg at hlt
      linarith
  · intro m c now j hl
    unfold message_sleep
    rw [hl]
  · intro m c now j l hl hlt
    unfold message_sleep
    rw [hl]
    exact if_pos hlt
  · intro m c now j l hl hlt
    unfold message_sleep
    rw [hl]
    exact if_neg hlt
  · intro m c now2 d hd
    unfold check_message_rate_limit
    rw [if_neg hd]
  · intro m m' c now j hmc
    unfold message_sleep
    rw [hmc]
  · intro m c now2
    unfold check_message_rate_limit
    rw [if_pos rfl]

/-- C7 witness: for an integer chat with last send at 0, an acquisition
entering at 1/2 with zero jitter and waking at 1 is at least 1.0 after the
previous send; a first-seen chat sleeps nothing; and the update leaves a
different chat's entry untouched. -/
theorem c7_message_cadence_witness :
    1 ≤ (1:ℚ) - 0
    ∧ message_sleep (fun _ => none) (.int 5) 7 0 = none
    ∧ check_message_rate_limit (fun d => if d = .int 1 then some 0 else none)
        (.int 1) 9 (.int 2) = none := by
  refine ⟨?_, ?_, ?_⟩
  · exact c7_message_cadence.1 (fun d => if d = .int 1 then some 0 else none) (.int 1)
      (1/2) 0 1 0 (by norm_num) le_rfl (by norm_num)
      (by norm_num [message_sleep])
  · exact c7_message_cadence.2.1 (fun _ => none) (.int 5) 7 0 rfl
  · exact c7_message_cadence.2.2.2.2.1 (fun d => if d = .int 1 then some 0 else none)
      (.int 1) 9 (.int 2) (by decide)

/-- A throttle-or-flood outcome is a response that is either a 429 or a 2xx
success-false payload with a flood marker. -/
theorem throttleOrFlood_cases (o : CallOutcome) (h : isThrottleOrFlood o = true) :
    ∃ r, o = .resp r ∧ (r.status = 429 ∨ (is_success r.status = true ∧ r.success = false ∧
      (hasFloodMarker r.errorCode || hasFloodMarker r.errorMsg) = true)) := by
  cases o with
  | transport => simp [isThrottleOrFlood] at h
  | resp r =>
    refine ⟨r, rfl, ?_⟩
    simp only [isThrottleOrFlood, Bool.or_eq_true, Bool.and_eq_true, decide_eq_true_eq,
      Bool.not_eq_true'] at h
    rcases h with h | ⟨⟨h1, h2⟩, h3⟩
    · exact Or.inl h
    · refine Or.inr ⟨h1, h2, ?_⟩
      rcases h3 with h3 | h3 <;> simp [h3]

/-- When every attempt from the current one through attempt mr yields a
throttle or flood-wait outcome, the loop performs one underlying call per
remaining attempt and ends in the exhaustion error of the final outcome. -/
theorem request_attempts_exhaust (mr : ℕ) (outcomes : ℕ → CallOutcome)
    (rlJ flJ trJ : ℕ → ℚ) :
    ∀ (fuel attempt : ℕ), attempt + fuel = mr →
      (∀ a, attempt ≤ a → a ≤ mr → isThrottleOrFlood (outcomes a) = true) →
      (request_attempts mr outcomes rlJ flJ trJ attempt (fuel + 1)).1
          = exhaustResult (outcomes mr) mr rlJ
        ∧ (request_attempts mr outcomes rlJ flJ trJ attempt (fuel + 1)).2.1 = fuel + 1 := by
  intro fuel
  induction fuel with
  | zero =>
    intro attempt hsum hall
    have ha : mr = attempt := by omega
    subst ha
    obtain ⟨r, ho, hcase⟩ := throttleOrFlood_cases _ (hall mr le_rfl le_rfl)
    rcases hcase with h429 | ⟨h2xx, hsucc, hmark⟩
    · have e : request_attempts mr outcomes rlJ flJ trJ mr (0 + 1)
          = (.rateLimitError (handle_rate_limit_error r.body429 r.header mr (rlJ mr)),
             1, []) := by
        rw [request_attempts.eq_2]
        simp only [ho, if_pos h429, if_neg (lt_irrefl mr)]
      rw [e]
      refine ⟨?_, rfl⟩
      rw [ho]
      simp only [exhaustResult, if_pos h429]
    · have hrange : 200 ≤ r.status ∧ r.status < 300 := by
        simpa [is_success, Bool.and_eq_true, decide_eq_true_eq] using h2xx
      have hne : ¬ r.status = 429 := by omega
      have hns : ¬ is_success r.status = false := by simp [h2xx]
      have e : request_attempts mr outcomes rlJ flJ trJ mr (0 + 1)
          = (.floodWaitError (extract_flood_wait_time r.errorMsg r.floodParams), 1, []) := by
        rw [request_attempts.eq_2]
        simp only [ho, if_neg hne, if_neg hns, hsucc, Bool.false_eq_true, if_false,
          if_pos hmark, if_neg (lt_irrefl mr)]
      rw [e]
      refine ⟨?_, rfl⟩
      rw [ho]
      simp only [exhaustResult, if_neg hne]
  | succ f ih =>
    intro attempt hsum hall
    have hlt : attempt < mr := by omega
    have hrest := ih (attempt + 1) (by omega) (fun a h1 h2 => hall a (by omega) h2)
    obtain ⟨r, ho, hcase⟩ := throttleOrFlood_cases _ (hall attempt le_rfl (by omega))
    rcases hcase with h429 | ⟨h2xx, hsucc, hmark⟩
    · have e : request_attempts mr outcomes rlJ flJ trJ attempt (f + 1 + 1)
          = ((request_attempts mr outcomes rlJ flJ trJ (attempt + 1) (f + 1)).1,
             (request_attempts mr outcomes rlJ flJ trJ (attempt + 1) (f + 1)).2.1 + 1,
             handle_rate_limit_error r.body429 r.header attempt (rlJ attempt)
               :: (request_attempts mr outcomes rlJ flJ trJ (attempt + 1) (f + 1)).2.2) := by
        rw [request_attempts.eq_2]
        simp only [ho, if_pos h429, if_pos hlt]
      rw [e]
      exact ⟨hrest.1, by rw [hrest.2]⟩
    · have hrange : 200 ≤ r.status ∧ r.status < 300 := by
        simpa [is_success, Bool.and_eq_true, decide_eq_true_eq] using h2xx
      have hne : ¬ r.status = 429 := by omega
      have hns : ¬ is_success r.status = false := by simp [h2xx]
      have e : request_attempts mr outcomes rlJ flJ trJ attempt (f + 1 + 1)
          = ((request_attempts mr outcomes rlJ flJ trJ (attempt + 1) (f + 1)).1,
             (request_attempts mr outcomes rlJ flJ trJ (attempt + 1) (f + 1)).2.1 + 1,
             (extract_flood_wait_time r.errorMsg r.floodParams + flJ attempt)
               :: (request_attempts mr outcomes rlJ flJ trJ (attempt + 1) (f + 1)).2.2) := by
        rw [request_attempts.eq_2]
        simp only [ho, if_neg hne, if_neg hns, hsucc, Bool.false_eq_true, if_false,
          if_pos hmark, if_pos hlt]
      rw [e]
      exact ⟨hrest.1, by rw [hrest.2]⟩

/-- C3: when every attempt yields a throttle (429) or flood-wait outcome,
the request performs exactly maxRetries + 1 underlying calls and ends by
raising a single exhaustion error — RateLimitError or FloodWaitError — that
carries the wait computed from the final attempt's outcome; a request whose
first attempt succeeds performs exactly one underlying call and no backoff
sleep; and the constructor default of max_retries is 3. -/
theorem c3_retry_exhaustion :
    (∀ (mr : ℕ) (outcomes : ℕ → CallOutcome) (rlJ flJ trJ : ℕ → ℚ),
        (∀ a, a ≤ mr → isThrottleOrFlood (outcomes a) = true) →
        (request mr outcomes rlJ flJ trJ).2.1 = mr + 1
          ∧ (request mr outcomes rlJ flJ trJ).1 = exhaustResult (outcomes mr) mr rlJ
          ∧ ((∃ w, (request mr outcomes rlJ flJ trJ).1 = .rateLimitError w)
              ∨ ∃ w, (request mr outcomes rlJ flJ trJ).1 = .floodWaitError w))
    ∧ (∀ (mr : ℕ) (outcomes : ℕ → CallOutcome) (rlJ flJ trJ : ℕ → ℚ) (r : ApiResp),
        outcomes 0 = .resp r → r.status ≠ 429 → is_success r.status = true →
        r.success = true →
        request mr outcomes rlJ flJ trJ = (.ok r.data, 1, []))
    ∧ max_retries_default = 3 := by
  refine ⟨?_, ?_, rfl⟩
  · intro mr outcomes rlJ flJ trJ hall
    have h := request_attempts_exhaust mr outcomes rlJ flJ trJ mr 0 (by omega)
      (fun a _ h2 => hall a h2)
    refine ⟨h.2, h.1, ?_⟩
    unfold request
    rw [h.1]
    have hA := hall mr le_rfl
    cases ho : outcomes mr with
    | transport => simp [isThrottleOrFlood, ho] at hA
    | resp r =>
      unfold exhaustResult
      by_cases h429 : r.status = 429
      · exact Or.inl ⟨_, if_pos h429⟩
      · exact Or.inr ⟨_, if_neg h429⟩
  · intro mr outcomes rlJ flJ trJ r h0 h1 h2 h3
    have hns : ¬ is_success r.status = false := by simp [h2]
    unfold request
    simp [request_attempts, h0, h1, hns, h3]

/-- C3 witness: with max_retries 1 and every attempt answered 429 with a
Retry-After header of 2, the request performs 2 underlying calls and raises
the rate-limit exhaustion error carrying the wait computed at the final
attempt. -/
theorem c3_retry_exhaustion_witness :
    (request 1 (fun _ => .resp ⟨429, some (some 2), .notDict, true, "", "", .notDict, none⟩)
        (fun _ => 0) (fun _ => 0) (fun _ => 0)).2.1 = 1 + 1
    ∧ (request 1 (fun _ => .resp ⟨429, some (some 2), .notDict, true, "", "", .notDict, none⟩)
        (fun _ => 0) (fun _ => 0) (fun _ => 0)).1
      = exhaustResult (.resp ⟨429, some (some 2), .notDict, true, "", "", .notDict, none⟩) 1
          (fun _ => 0) := by
  have h := c3_retry_exhaustion.1 1
    (fun _ => .resp ⟨429, some (some 2), .notDict, true, "", "", .notDict, none⟩)
    (fun _ => 0) (fun _ => 0) (fun _ => 0) (fun a _ => rfl)
  exact ⟨h.1, h.2.1⟩

/-- C8: a response that is neither a 429, nor a non-2xx status (which
raise_for_status would turn into a retried HTTPStatusError), nor a
flood-wait signal — a 2xx success-false API result with no FLOOD_WAIT
marker in its error code or message — makes the loop raise the error
unchanged at the attempt where it occurs, with one underlying call from that
point and no backoff sleep; in particular on the first attempt the whole
request performs exactly one call and no sleep. -/
theorem c8_nonretryable_propagation :
    (∀ (mr attempt fuel : ℕ) (outcomes : ℕ → CallOutcome) (rlJ flJ trJ : ℕ → ℚ)
        (r : ApiResp), outcomes attempt = .resp r → r.status ≠ 429 →
        is_success r.status = true →
        r.success = false → hasFloodMarker r.errorCode = false →
        hasFloodMarker r.errorMsg = false →
        request_attempts mr outcomes rlJ flJ trJ attempt (fuel + 1)
          = (.clientError r.errorMsg, 1, []))
    ∧ (∀ (mr : ℕ) (outcomes : ℕ → CallOutcome) (rlJ flJ trJ : ℕ → ℚ) (r : ApiResp),
        outcomes 0 = .resp r → r.status ≠ 429 → is_success r.status = true →
        r.success = false → hasFloodMarker r.errorCode = false →
        hasFloodMarker r.errorMsg = false →
        request mr outcomes rlJ flJ trJ = (.clientError r.errorMsg, 1, [])) := by
  have hstep : ∀ (mr attempt fuel : ℕ) (outcomes : ℕ → CallOutcome) (rlJ flJ trJ : ℕ → ℚ)
      (r : ApiResp), outcomes attempt = .resp r → r.status ≠ 429 →
      is_success r.status = true →
      r.success = false → hasFloodMarker r.errorCode = false →
      hasFloodMarker r.errorMsg = false →
      request_attempts mr outcomes rlJ flJ trJ attempt (fuel + 1)
        = (.clientError r.errorMsg, 1, []) := by
    intro mr attempt fuel outcomes rlJ flJ trJ r h0 h1 h2 h3 h4 h5
    have hns : ¬ is_success r.status = false := by simp [h2]
    simp [request_attempts, h0, h1, hns, h3, h4, h5]
  exact ⟨hstep, fun mr outcomes rlJ flJ trJ r h0 h1 h2 h3 h4 h5 =>
    hstep mr 0 mr outcomes rlJ flJ trJ r h0 h1 h2 h3 h4 h5⟩

/-- C8 witness: a success-false result carrying the message CHAT_NOT_FOUND
(no flood marker) is raised unchanged after exactly one call and no
sleep. -/
theorem c8_nonretryable_propagation_witness :
    request 3
        (fun _ => .resp ⟨200, none, .notDict, false, "CHAT_NOT_FOUND", "NOT_FOUND", .notDict, none⟩)
        (fun _ => 0) (fun _ => 0) (fun _ => 0)
      = (.clientError "CHAT_NOT_FOUND", 1, []) :=
  c8_nonretryable_propagation.2 3 _ (fun _ => 0) (fun _ => 0) (fun _ => 0)
    ⟨200, none, .notDict, false, "CHAT_NOT_FOUND", "NOT_FOUND", .notDict, none⟩
    rfl (by norm_num) (by decide) rfl (by decide) (by decide)

end TgSpec
